import Mathlib

/-!
Verification of the kujali budgeting feature slice: the select-budget page
aggregation, the budget-table presenter helpers, and the add-note command
handler.  The definitions below are shallow embeddings of the TypeScript
source under libs/features/budgetting/budgets and of the unnamed handler
file; theorems settle the specification claims against them.
-/

/- ### Data model -/

namespace BudgetStatus

/-- Modelled from the spec: the BudgetStatus enumeration lives outside this
repository fragment; the spec fixes InUse = 1 (with design = 0, no-use = 9,
deleted = -1 as the other codes). -/
def InUse : Int := 1

end BudgetStatus

/-- Modelled from the spec: a Budget entity (imported by the source from the
model package).  Fields the verified code touches: identifier, name, status
code, startYear, duration, the derived endYear, and the presentation-only
annotations canBeActivated and access.  The two annotations are Options so
that a deleted property is represented by none; access is opaque to this
subsystem and carried as a string. -/
structure Budget where
  id : String
  name : String
  status : Int
  startYear : Int
  duration : Int
  endYear : Int
  canBeActivated : Option Bool
  access : Option String
  deriving Repr, DecidableEq

/-- Modelled from the spec: an element of a BudgetRecord child list.  The
verified code only ever reads its budget field (child.budget in
openChildBudgetDialog). -/
structure ChildRecord where
  budget : Budget
  deriving Repr, DecidableEq

/-- Modelled from the spec: a view-model wrapper pairing a Budget with its
list of children (absent until loaded, hence an Option) and the transient
updating flag. -/
structure BudgetRecord where
  budget : Budget
  children : Option (List ChildRecord)
  updating : Bool
  deriving Repr, DecidableEq

/-- Modelled from the spec: the partition of an organisation's BudgetRecords
into three ordered groups; the object declares its properties in the order
inUse, underConstruction, archived. -/
structure OrgBudgetsOverview where
  inUse : List BudgetRecord
  underConstruction : List BudgetRecord
  archived : List BudgetRecord
  deriving Repr, DecidableEq

/- ### SelectBudgetPageComponent.allBudgets -/

/-- Embeds the lodash flatMap call applied to the OrgBudgetsOverview object:
lodash iterates the object's own enumerable values in property order and
flattens the result one level, concatenating the three group arrays. -/
def flatMapOverview (overview : OrgBudgetsOverview) : List BudgetRecord :=
  List.flatten [overview.inUse, overview.underConstruction, overview.archived]

/-- Embeds the lodash flatMap call applied to the already-flat shared-budgets
array: each non-array element contributes itself while one level of nesting
is removed. -/
def flatMapBudgets (budgets : List Budget) : List Budget :=
  List.flatten (budgets.map (fun b => [b]))

/-- The value computed by the allBudgets computed signal. -/
structure AllBudgets where
  overview : List BudgetRecord
  budgets : List Budget
  deriving Repr, DecidableEq

/-- Embeds SelectBudgetPageComponent.allBudgets.  The two signal reads are
the two arguments; a source that has not produced a value yet is none, which
the guard clause turns into the empty result.  Otherwise both inputs are
flattened and every shared budget gets endYear recomputed as
startYear + duration - 1 by the map over flatBudgets. -/
def allBudgets (overview : Option OrgBudgetsOverview)
    (budgets : Option (List Budget)) : AllBudgets :=
  match overview, budgets with
  | some ov, some bs =>
      let flatOverview := flatMapOverview ov
      let flatBudgets := flatMapBudgets bs
      let trBudgets := flatBudgets.map (fun budget =>
        { budget with endYear := budget.startYear + budget.duration - 1 })
      { overview := flatOverview, budgets := trBudgets }
  | _, _ => { overview := [], budgets := [] }

/-- The shared-budgets input as it stands after allBudgets has run.  In the
source the map body executes the assignment to the endYear property of each
element in place, so the elements of the input array itself carry the
recomputed endYear once the aggregation returns. -/
def sharedBudgetsAfter (budgets : List Budget) : List Budget :=
  budgets.map (fun budget =>
    { budget with endYear := budget.startYear + budget.duration - 1 })

/- ### SelectBudgetPageComponent.setActive -/

/-- What setActive hands to its collaborators: the sanitized budget passed to
the store update, and the state of the record's own budget object once the
call has prepared that payload. -/
structure SetActiveEffect where
  sentToStore : Budget
  recordBudgetAfter : Budget
  deriving Repr, DecidableEq

/-- Embeds the lodash cloneDeep call: it yields an independent, structurally
equal copy of the budget, so in the value semantics of this embedding it is
the identity. -/
def cloneDeep (b : Budget) : Budget := b

/-- Embeds SelectBudgetPageComponent.setActive up to the store call: toSave
is a deep clone of record.budget on which the canBeActivated and access
properties are deleted and status is set to BudgetStatus.InUse.  Because the
clone is an independent object, those writes never reach record.budget,
which is therefore unchanged when the payload is sent. -/
def setActivePrepare (record : BudgetRecord) : SetActiveEffect :=
  let toSave := cloneDeep record.budget
  let toSave :=
    { toSave with
      canBeActivated := none,
      access := none,
      status := BudgetStatus.InUse }
  { sentToStore := toSave, recordBudgetAfter := record.budget }

/-- Embeds the updating-flag write setActive performs when it fires the
update request: record.updating is set to true. -/
def setActiveSend (record : BudgetRecord) : BudgetRecord :=
  { record with updating := true }

/-- Embeds the subscribe callbacks of setActive: the next callback and the
error callback both set record.updating back to false; the error is only
logged, so the handler returns an ordinary record for every outcome instead
of rethrowing. -/
def setActiveComplete (record : BudgetRecord)
    (outcome : Except String Unit) : BudgetRecord :=
  match outcome with
  | Except.ok _ => { record with updating := false }
  | Except.error _ => { record with updating := false }

/- ### BudgetTableComponent -/

/-- The payload handed to the child-budgets dialog. -/
structure ChildDialogData where
  parent : Budget
  budgets : Option (List Budget)
  deriving Repr, DecidableEq

/-- Embeds BudgetTableComponent.openChildBudgetDialog: find the first cached
overview record whose budget.id equals parent.id; the optional chain takes
its children (undefined on a miss, and possibly undefined on the record
itself); the conditional map turns each child into its bare budget; the
dialog receives the parent together with those budgets. -/
def openChildBudgetDialog (overviewBudgets : List BudgetRecord)
    (parent : Budget) : ChildDialogData :=
  let children :=
    (overviewBudgets.find? (fun record => record.budget.id == parent.id)).bind
      (fun record => record.children)
  let children := children.map (fun cs => cs.map (fun child => child.budget))
  { parent := parent, budgets := children }

/-- Embeds BudgetTableComponent.translateStatus: a switch over the status
code returning i18n keys, with the empty string as the default branch. -/
def translateStatus (status : Int) : String :=
  if status = 1 then "BUDGET.STATUS.ACTIVE"
  else if status = 0 then "BUDGET.STATUS.DESIGN"
  else if status = 9 then "BUDGET.STATUS.NO-USE"
  else if status = -1 then "BUDGET.STATUS.DELETED"
  else ""

/- ### AddNoteToBudgetHandler -/

/-- Embeds the AddNoteToBudgetCommand class: the input triple. -/
structure AddNoteToBudgetCommand where
  orgId : String
  budgetId : String
  content : String
  deriving Repr, DecidableEq

/-- Embeds the Notes record stored by the handler: one free-text field. -/
structure Notes where
  note : String
  deriving Repr, DecidableEq

/-- Embeds the AddNoteToBudgetResult interface. -/
structure AddNoteToBudgetResult where
  id : String
  noteId : String
  budgetId : String
  content : String
  deriving Repr, DecidableEq

/-- Embeds the BUDGET_NOTES_REPO path builder. -/
def BUDGET_NOTES_REPO (orgId budgetId : String) : String :=
  "orgs/" ++ orgId ++ "/budgets/" ++ budgetId ++ "/notes"

/-- Embeds the JavaScript trim method on strings: removes whitespace from
both ends of the string.  Defined over the character list so that it is
fully executable. -/
def jsTrim (s : String) : String :=
  ⟨((s.data.dropWhile Char.isWhitespace).reverse.dropWhile
      Char.isWhitespace).reverse⟩

/-- A record created through the document repository during one execute call:
the path the repository handle was keyed by, the stored note, and the
identifier the repository assigned to it. -/
structure CreatedNote where
  path : String
  note : Notes
  assignedId : String
  deriving Repr, DecidableEq

/-- Embeds AddNoteToBudgetHandler.execute.  The repository collaborator is
abstracted by the identifier freshId it assigns to the record it creates;
the returned list collects every record the call creates.  A thrown Error is
an Except.error carrying its message.  The JavaScript falsiness test on a
string field coincides with the trimmed-length-zero test, since the only
falsy string is the empty one. -/
def AddNoteToBudgetHandler.execute (command : AddNoteToBudgetCommand)
    (freshId : String) :
    Except String (AddNoteToBudgetResult × List CreatedNote) :=
  if (jsTrim command.content).length = 0 then
    Except.error "Note content cannot be empty"
  else if (jsTrim command.budgetId).length = 0 then
    Except.error "Budget ID cannot be empty"
  else if (jsTrim command.orgId).length = 0 then
    Except.error "Organisation ID cannot be empty"
  else
    let note : Notes := { note := (jsTrim command.content) }
    let createdId := freshId
    Except.ok
      ({ id := createdId, noteId := createdId,
         budgetId := command.budgetId, content := (jsTrim command.content) },
       [{ path := BUDGET_NOTES_REPO command.orgId command.budgetId,
          note := note, assignedId := createdId }])

/- ### Claims -/

/-- C1: for every command whose orgId, budgetId and content are all non-empty
after trimming, execute creates exactly one note record holding the trimmed
content, keyed by the path orgs/(orgId)/budgets/(budgetId)/notes, and
returns the command's budgetId, the trimmed content, and the
repository-assigned identifier under both id and noteId. -/
theorem addNote_success (command : AddNoteToBudgetCommand) (freshId : String)
    (hc : (jsTrim command.content).length ≠ 0)
    (hb : (jsTrim command.budgetId).length ≠ 0)
    (ho : (jsTrim command.orgId).length ≠ 0) :
    AddNoteToBudgetHandler.execute command freshId =
      Except.ok
        ({ id := freshId, noteId := freshId,
           budgetId := command.budgetId, content := (jsTrim command.content) },
         [{ path := BUDGET_NOTES_REPO command.orgId command.budgetId,
            note := { note := (jsTrim command.content) },
            assignedId := freshId }]) := by
  unfold AddNoteToBudgetHandler.execute
  simp [hc, hb, ho]

/-- C1 witness: the concrete example of the spec, with assigned id n1. -/
theorem addNote_success_witness :
    AddNoteToBudgetHandler.execute
        { orgId := "o1", budgetId := "b1", content := " hello " } "n1" =
      Except.ok
        ({ id := "n1", noteId := "n1", budgetId := "b1", content := "hello" },
         [{ path := "orgs/o1/budgets/b1/notes", note := { note := "hello" },
            assignedId := "n1" }]) := by
  have h := addNote_success
    { orgId := "o1", budgetId := "b1", content := " hello " } "n1"
    (by decide) (by decide) (by decide)
  exact h.trans (by rfl)

/-- C2: validation is fail-fast in the fixed order content, budgetId, orgId:
an empty trimmed content rejects with the note-content error regardless of
the other fields; otherwise an empty trimmed budgetId rejects with the
budget-ID error; otherwise an empty trimmed orgId rejects with the
organisation-ID error. -/
theorem addNote_validation_order (command : AddNoteToBudgetCommand)
    (freshId : String) :
    ((jsTrim command.content).length = 0 →
      AddNoteToBudgetHandler.execute command freshId =
        Except.error "Note content cannot be empty") ∧
    ((jsTrim command.content).length ≠ 0 → (jsTrim command.budgetId).length = 0 →
      AddNoteToBudgetHandler.execute command freshId =
        Except.error "Budget ID cannot be empty") ∧
    ((jsTrim command.content).length ≠ 0 → (jsTrim command.budgetId).length ≠ 0 →
      (jsTrim command.orgId).length = 0 →
      AddNoteToBudgetHandler.execute command freshId =
        Except.error "Organisation ID cannot be empty") := by
  refine ⟨?_, ?_, ?_⟩ <;>
    · intros
      unfold AddNoteToBudgetHandler.execute
      simp_all

/-- C2 witness: the two concrete examples of the spec: whitespace-only
content rejects with the content error, and an empty orgId with non-empty
content and budgetId rejects with the organisation-ID error. -/
theorem addNote_validation_order_witness :
    AddNoteToBudgetHandler.execute
        { orgId := "o1", budgetId := "b1", content := "  " } "n1" =
      Except.error "Note content cannot be empty" ∧
    AddNoteToBudgetHandler.execute
        { orgId := "", budgetId := "b1", content := "x" } "n1" =
      Except.error "Organisation ID cannot be empty" := by
  constructor
  · exact (addNote_validation_order
      { orgId := "o1", budgetId := "b1", content := "  " } "n1").1 (by decide)
  · exact (addNote_validation_order
      { orgId := "", budgetId := "b1", content := "x" } "n1").2.2
      (by decide) (by decide) (by decide)

/-- C3 counterexample: translateStatus 1 is the i18n key
BUDGET.STATUS.ACTIVE, not the bare word active the claim states. -/
theorem translateStatus_not_bare_active : translateStatus 1 ≠ "active" := by
  decide

/-- C3 (amended): translateStatus maps 1, 0, 9 and -1 to the i18n keys
BUDGET.STATUS.ACTIVE, BUDGET.STATUS.DESIGN, BUDGET.STATUS.NO-USE and
BUDGET.STATUS.DELETED respectively, and every other integer to the empty
string. -/
theorem translateStatus_table :
    translateStatus 1 = "BUDGET.STATUS.ACTIVE" ∧
    translateStatus 0 = "BUDGET.STATUS.DESIGN" ∧
    translateStatus 9 = "BUDGET.STATUS.NO-USE" ∧
    translateStatus (-1) = "BUDGET.STATUS.DELETED" ∧
    ∀ status : Int, status ≠ 1 → status ≠ 0 → status ≠ 9 → status ≠ -1 →
      translateStatus status = "" := by
  refine ⟨by decide, by decide, by decide, by decide, ?_⟩
  intro status h1 h0 h9 hm
  simp [translateStatus, h1, h0, h9, hm]

/-- C3 witness: the default branch at the concrete status 42. -/
theorem translateStatus_table_witness : translateStatus 42 = "" :=
  translateStatus_table.2.2.2.2 42 (by decide) (by decide) (by decide)
    (by decide)

/-- C4: whenever either input source is still in its not-yet-loaded state,
allBudgets yields the empty overview and the empty budgets list. -/
theorem allBudgets_absent (overview : Option OrgBudgetsOverview)
    (budgets : Option (List Budget))
    (h : overview = none ∨ budgets = none) :
    allBudgets overview budgets = { overview := [], budgets := [] } := by
  rcases h with h | h
  · subst h
    cases budgets <;> rfl
  · subst h
    cases overview <;> rfl

/-- C4 witness: the overview source absent, the shared source loaded. -/
theorem allBudgets_absent_witness :
    allBudgets none (some []) = { overview := [], budgets := [] } :=
  allBudgets_absent none (some []) (Or.inl rfl)

/-- C5: every budget in the budgets portion of the aggregated output
satisfies endYear = startYear + duration - 1, whatever endYear it carried
before aggregation. -/
theorem allBudgets_endYear (overview : Option OrgBudgetsOverview)
    (budgets : Option (List Budget)) (b : Budget)
    (hb : b ∈ (allBudgets overview budgets).budgets) :
    b.endYear = b.startYear + b.duration - 1 := by
  cases overview with
  | none => simp [allBudgets] at hb
  | some ov =>
    cases budgets with
    | none => simp [allBudgets] at hb
    | some bs =>
      simp only [allBudgets, List.mem_map] at hb
      obtain ⟨a, _, rfl⟩ := hb
      rfl

/-- C5 witness: one shared budget with a stale endYear of 0 comes out of the
aggregation carrying endYear 2022 = 2020 + 3 - 1. -/
theorem allBudgets_endYear_witness :
    ({ id := "b1", name := "B", status := 0, startYear := 2020, duration := 3,
       endYear := 2022, canBeActivated := none, access := none } : Budget) ∈
      (allBudgets
        (some { inUse := [], underConstruction := [], archived := [] })
        (some [{ id := "b1", name := "B", status := 0, startYear := 2020,
                 duration := 3, endYear := 0, canBeActivated := none,
                 access := none }])).budgets ∧
    ({ id := "b1", name := "B", status := 0, startYear := 2020, duration := 3,
       endYear := 2022, canBeActivated := none, access := none } :
        Budget).endYear = 2020 + 3 - 1 :=
  ⟨by decide,
   allBudgets_endYear
    (some { inUse := [], underConstruction := [], archived := [] })
    (some [{ id := "b1", name := "B", status := 0, startYear := 2020,
             duration := 3, endYear := 0, canBeActivated := none,
             access := none }])
    { id := "b1", name := "B", status := 0, startYear := 2020, duration := 3,
      endYear := 2022, canBeActivated := none, access := none }
    (by decide)⟩

/-- C6: the overview portion of the aggregated output is exactly the inUse
group, then the underConstruction group, then the archived group, each kept
in its own internal order. -/
theorem allBudgets_overview_order (ov : OrgBudgetsOverview)
    (bs : List Budget) :
    (allBudgets (some ov) (some bs)).overview =
      ov.inUse ++ ov.underConstruction ++ ov.archived := by
  simp [allBudgets, flatMapOverview, List.append_assoc]

/-- The one-level flatten of an already-flat budget list is that list. -/
theorem flatMapBudgets_eq (bs : List Budget) : flatMapBudgets bs = bs := by
  induction bs with
  | nil => rfl
  | cons b rest ih =>
    simp [flatMapBudgets] at ih ⊢
    exact ih

/-- C7: the budgets portion of the output is exactly the shared-budgets
input as the aggregation leaves it, and at a concrete input that
after-state differs from the original: the in-place endYear assignment in
the map body reaches the elements of the input list, so the aggregation
does mutate its input. -/
theorem aggregation_mutates_shared_input :
    (∀ (ov : OrgBudgetsOverview) (bs : List Budget),
      (allBudgets (some ov) (some bs)).budgets = sharedBudgetsAfter bs) ∧
    sharedBudgetsAfter
        [{ id := "b1", name := "B", status := 0, startYear := 2020,
           duration := 3, endYear := 0, canBeActivated := none,
           access := none }] ≠
      [{ id := "b1", name := "B", status := 0, startYear := 2020,
         duration := 3, endYear := 0, canBeActivated := none,
         access := none }] := by
  constructor
  · intro ov bs
    simp [allBudgets, sharedBudgetsAfter, flatMapBudgets_eq]
  · decide

/-- C8: the budget setActive sends to the store is the record's budget with
canBeActivated and access removed and status forced to InUse, every other
field unchanged; and the record's own budget object is left as it was,
since the sanitization happens on a deep copy. -/
theorem setActive_sanitizes (record : BudgetRecord) :
    (setActivePrepare record).sentToStore =
      { record.budget with
        canBeActivated := none,
        access := none,
        status := BudgetStatus.InUse } ∧
    (setActivePrepare record).recordBudgetAfter = record.budget :=
  ⟨rfl, rfl⟩

/-- C9: the updating flag is true when the promotion request is sent and
false after completion, for the success and the failure outcome alike; the
completion handler returns an ordinary record for every outcome, so a
mutation error never escapes to the caller as an exception. -/
theorem setActive_updating_flag (record : BudgetRecord) :
    (setActiveSend record).updating = true ∧
    ∀ outcome : Except String Unit,
      (setActiveComplete (setActiveSend record) outcome).updating = false := by
  refine ⟨rfl, ?_⟩
  intro outcome
  cases outcome <;> rfl

/-- C10: openChildBudgetDialog always hands the parent through; on a lookup
miss it passes undefined children (and, being a total function, does not
throw); on a hit it passes the matched record's children mapped to their
bare budgets. -/
theorem openChildBudgetDialog_lookup (overviewBudgets : List BudgetRecord)
    (parent : Budget) :
    (openChildBudgetDialog overviewBudgets parent).parent = parent ∧
    (overviewBudgets.find? (fun record => record.budget.id == parent.id) =
        none →
      (openChildBudgetDialog overviewBudgets parent).budgets = none) ∧
    (∀ record,
      overviewBudgets.find? (fun record => record.budget.id == parent.id) =
        some record →
      (openChildBudgetDialog overviewBudgets parent).budgets =
        record.children.map (fun cs => cs.map (fun child => child.budget))) := by
  refine ⟨rfl, ?_, ?_⟩
  · intro h
    simp [openChildBudgetDialog, h]
  · intro record h
    simp [openChildBudgetDialog, h]

/-- C10 witness: an empty cached overview has no matching record, and the
dialog receives undefined children. -/
theorem openChildBudgetDialog_lookup_witness :
    (openChildBudgetDialog []
        { id := "p", name := "P", status := 1, startYear := 2020,
          duration := 1, endYear := 2020, canBeActivated := none,
          access := none }).budgets = none :=
  (openChildBudgetDialog_lookup []
    { id := "p", name := "P", status := 1, startYear := 2020, duration := 1,
      endYear := 2020, canBeActivated := none, access := none }).2.1 rfl
